import Mathlib

/-!
Shallow embedding of the aqua-installer bootstrap installer
(src/main.ts, with the Deno near-duplicate src/unnamed/part_000).

External effects (network download, the SHA-256 crypto primitive,
process spawning, chmod, archive extraction) are modelled as oracles
supplied in an environment record; everything the repository's own code
computes (platform resolution, artifact filename and URL construction,
checksum-table lookup, hex encoding of the digest, the comparison, path
joining, control flow and cleanup sequencing) is embedded directly.
The installer returns its result together with the ordered trace of
side-effecting events it performed.
-/

namespace AquaInstaller

/-! ### Hex encoding of digest bytes

Models part_000's hashArray.map((b) => b.toString(16).padStart(2, "0")).join("")
(and Node's hash.digest("hex")): each byte below 256 becomes two lowercase
hex characters. -/

def hexDigitChar (n : Nat) : Char :=
  if n < 10 then Char.ofNat (48 + n) else Char.ofNat (87 + n)

def byteToHex (b : Nat) : List Char :=
  [hexDigitChar (b / 16), hexDigitChar (b % 16)]

def bytesToHex (bs : List Nat) : String :=
  String.mk (bs.flatMap byteToHex)

/-! ### POSIX path join and normalization, as in node:path / @std/path

The splitting on the separator and the reassembly are spelled out over
List Char by structural recursion (semantically String.splitOn "/" and
String.intercalate "/") so that concrete paths evaluate inside the kernel. -/

def splitSlash : List Char → List Char → List String
  | [], acc => [String.mk acc.reverse]
  | c :: rest, acc =>
    if c = '/' then String.mk acc.reverse :: splitSlash rest []
    else splitSlash rest (c :: acc)

def joinSegs : List String → List Char
  | [] => []
  | [s] => s.data
  | s :: rest => s.data ++ '/' :: joinSegs rest

def pathIsAbs (p : String) : Bool :=
  match p.data with
  | '/' :: _ => true
  | _ => false

def resolveSegs (isAbs : Bool) : List String → List String → List String
  | [], stack => stack.reverse
  | seg :: rest, stack =>
    if seg = "" ∨ seg = "." then resolveSegs isAbs rest stack
    else if seg = ".." then
      match stack with
      | [] => if isAbs then resolveSegs isAbs rest []
              else resolveSegs isAbs rest [".."]
      | top :: stk =>
        if top = ".." then resolveSegs isAbs rest (".." :: top :: stk)
        else resolveSegs isAbs rest stk
    else resolveSegs isAbs rest (seg :: stack)

def normalizePath (p : String) : String :=
  let isAbs := pathIsAbs p
  let body := String.mk (joinSegs (resolveSegs isAbs (splitSlash p.data []) []))
  if isAbs then "/" ++ body
  else if body = "" then "." else body

def joinPath (parts : List String) : String :=
  let nonempty := parts.filter (fun s => s ≠ "")
  if nonempty.isEmpty then "."
  else normalizePath (String.mk (joinSegs nonempty))

/-- Whether path p lies inside directory dir (p equals dir or is below it). -/
def isWithinDir (dir p : String) : Bool :=
  decide (p = dir) || (dir ++ "/").data.isPrefixOf p.data

/-! ### Data model: errors, events, environment -/

/-- Structured rendering of the throw sites of src/main.ts; each carries the
data the corresponding thrown message interpolates. -/
inductive Err where
  | unsupportedOS (os : String)
  | unsupportedArch (arch : String)
  | noChecksum (filename : String)
  | downloadFailed (msg : String)
  | checksumMismatch (expected actual : String)
  | extractionFailed (msg : String)
  | chmodFailed (msg : String)
  | execFailed (cmd : String) (args : List String) (code : Nat)
  | updateFailed
  | spawnFailed (cmd : String) (msg : String)
  deriving Repr, DecidableEq

/-- Observable side effects of an install run, in order. -/
inductive Event where
  | mkTempDir (dir : String)
  | netDownload (url : String)
  | fileRead (path : String)
  | fileWrite (path : String)
  | extractArchiveTo (archive dest : String)
  | chmodFile (path : String)
  | execProc (cmd : String) (args : List String)
  | removeDir (dir : String)
  deriving Repr, DecidableEq

/-- The external world of src/main.ts: host introspection (node:os), the
environment variables read, and outcomes of the library calls that main.ts
awaits (tc.downloadTool, fs readFile, node:crypto SHA-256, tc.extractZip and
tc.extractTar, fs chmod, exec.exec exit codes). -/
structure Env where
  osName : String
  archName : String
  home : String
  aquaRootDir : Option String
  xdgDataHome : Option String
  tempDir : String
  downloadResult : Except String String
  fileBytes : String → List Nat
  sha256 : List Nat → List Nat
  extractOutcome : Except String String
  chmodOutcome : Except String Unit
  updateExitCode : Nat
  versionExitCode : Nat

/-! ### Platform resolution (src/main.ts getOS / getArch) -/

def getOS (os : String) : Except Err String :=
  match os with
  | "darwin" => .ok "darwin"
  | "linux" => .ok "linux"
  | "win32" => .ok "windows"
  | _ => .error (.unsupportedOS os)

def getArch (architecture : String) : Except Err String :=
  match architecture with
  | "x64" => .ok "amd64"
  | "arm64" => .ok "arm64"
  | _ => .error (.unsupportedArch architecture)

/-- JavaScript x || dflt where x is an optional string: the empty string is
falsy, so it also selects the default. -/
def jsOr (v : Option String) (dflt : String) : String :=
  match v with
  | some s => if s = "" then dflt else s
  | none => dflt

/-- getInstallPath of src/main.ts and src/unnamed/part_000 (identical logic):
aquaRoot and xdg are the AQUA_ROOT_DIR and XDG_DATA_HOME environment
variables, home the home directory. -/
def getInstallPath (os : String) (aquaRoot xdg : Option String) (home : String) :
    String :=
  if os = "windows" then
    let base := jsOr aquaRoot (joinPath [home, "AppData", "Local", "aquaproj-aqua"])
    joinPath [base, "bin", "aqua.exe"]
  else
    let xdgDataHome := jsOr xdg (joinPath [home, ".local", "share"])
    let base := jsOr aquaRoot (joinPath [xdgDataHome, "aquaproj-aqua"])
    joinPath [base, "bin", "aqua"]

/-! ### Pinned artifact data (src/main.ts BOOTSTRAP_VERSION / CHECKSUMS) -/

def BOOTSTRAP_VERSION : String := "v2.55.1"

def CHECKSUMS : List (String × String) := [
  ("aqua_darwin_amd64.tar.gz",
   "814bd2ba3b1db409e89eae126ad280413e4edfefe91f598ce173c3b21ba56ca8"),
  ("aqua_darwin_arm64.tar.gz",
   "cdaa13dd96187622ef5bee52867c46d4cf10765963423dc8e867c7c4decccf4d"),
  ("aqua_linux_amd64.tar.gz",
   "7371b9785e07c429608a21e4d5b17dafe6780dabe306ec9f4be842ea754de48a"),
  ("aqua_linux_arm64.tar.gz",
   "283e0e274af47ff1d4d660a19e8084ae4b6aca23d901e95728a68a63dfb98c87"),
  ("aqua_windows_amd64.zip",
   "3efa0eaecd4f252f9dcf0d3b723e77894657977dc91939aac7697380a3f476a1"),
  ("aqua_windows_arm64.zip",
   "faf478d4db6e873ed85365e6864af31bf831317a1736b4ca7f3cf561e3a463ec")]

def lookupChecksum (filename : String) : Option String :=
  (CHECKSUMS.find? (fun p => p.1 == filename)).map (fun p => p.2)

/-- The filename computed inside install: aqua_os_arch.ext with ext zip on
windows and tar.gz otherwise. -/
def artifactFilename (os architecture : String) : String :=
  let ext := if os = "windows" then "zip" else "tar.gz"
  "aqua_" ++ os ++ "_" ++ architecture ++ "." ++ ext

/-- The download URL computed inside install: fixed release-host template,
pinned bootstrap version, platform filename; no other inputs. -/
def artifactUrl (filename : String) : String :=
  "https://github.com/aquaproj/aqua/releases/download/" ++ BOOTSTRAP_VERSION
    ++ "/" ++ filename

/-! ### Verification and the install driver (src/main.ts) -/

/-- src/main.ts verifyChecksum: read the file, hash it, hex-encode, and
compare the hex digest to the expected one with exact string equality. -/
def verifyChecksum (env : Env) (filePath expectedChecksum : String) :
    Except Err Unit :=
  let fileData := env.fileBytes filePath
  let hashHex := bytesToHex (env.sha256 fileData)
  if hashHex = expectedChecksum then .ok ()
  else .error (.checksumMismatch expectedChecksum hashHex)

/-- The try block of src/main.ts install: download, verify, extract, chmod,
self-update via update-aqua, then run the installed binary with -v.
exec.exec rejects on a non-zero exit code, so both spawns are fallible. -/
def installAttempt (version : Option String) (env : Env)
    (installPath : String) (isWindows : Bool) (url expectedChecksum : String) :
    Except Err Unit × List Event :=
  match env.downloadResult with
  | .error msg => (.error (.downloadFailed msg), [.netDownload url])
  | .ok downloadPath =>
    match verifyChecksum env downloadPath expectedChecksum with
    | .error e => (.error e, [.netDownload url, .fileRead downloadPath])
    | .ok _ =>
      match env.extractOutcome with
      | .error msg =>
        (.error (.extractionFailed msg),
         [.netDownload url, .fileRead downloadPath,
          .extractArchiveTo downloadPath env.tempDir])
      | .ok extractedPath =>
        let aquaBinaryPath :=
          joinPath [extractedPath, if isWindows then "aqua.exe" else "aqua"]
        let evs : List Event :=
          [.netDownload url, .fileRead downloadPath,
           .extractArchiveTo downloadPath env.tempDir,
           .chmodFile aquaBinaryPath]
        match env.chmodOutcome with
        | .error msg => (.error (.chmodFailed msg), evs)
        | .ok _ =>
          let args := match version with
            | some v => ["update-aqua", v]
            | none => ["update-aqua"]
          let evs2 := evs ++ [.execProc aquaBinaryPath args]
          if env.updateExitCode ≠ 0 then
            (.error (.execFailed aquaBinaryPath args env.updateExitCode), evs2)
          else
            let evs3 := evs2 ++ [.execProc installPath ["-v"]]
            if env.versionExitCode ≠ 0 then
              (.error (.execFailed installPath ["-v"] env.versionExitCode), evs3)
            else (.ok (), evs3)

/-- src/main.ts install: platform resolution, artifact location and checksum
lookup, then the download/verify/extract/update sequence inside a
try/finally that removes the temporary directory on every exit path. -/
def install (version : Option String) (env : Env) :
    Except Err Unit × List Event :=
  match getOS env.osName with
  | .error e => (.error e, [])
  | .ok os =>
    match getArch env.archName with
    | .error e => (.error e, [])
    | .ok architecture =>
      let installPath := getInstallPath os env.aquaRootDir env.xdgDataHome env.home
      let isWindows := os = "windows"
      let filename := artifactFilename os architecture
      let url := artifactUrl filename
      match lookupChecksum filename with
      | none => (.error (.noChecksum filename), [])
      | some expectedChecksum =>
        let body :=
          installAttempt version env installPath isWindows url expectedChecksum
        (body.1,
         Event.mkTempDir env.tempDir :: body.2 ++ [Event.removeDir env.tempDir])

/-! ### The Deno near-duplicate (src/unnamed/part_000) -/

/-- part_000 getOS: Deno.build.os reports windows directly, not win32. -/
def getOSDeno (os : String) : Except Err String :=
  match os with
  | "darwin" => .ok "darwin"
  | "linux" => .ok "linux"
  | "windows" => .ok "windows"
  | _ => .error (.unsupportedOS os)

/-- part_000 getArch: Deno.build.arch uses x86_64 / aarch64 names. -/
def getArchDeno (architecture : String) : Except Err String :=
  match architecture with
  | "x86_64" => .ok "amd64"
  | "aarch64" => .ok "arm64"
  | _ => .error (.unsupportedArch architecture)

/-- A tar entry as seen by part_000's Untar loop. -/
structure TarEntry where
  entryType : String
  fileName : String
  deriving Repr, DecidableEq

/-- The write paths produced by part_000 extractTarGz: for each entry of
type file, the destination is join(destDir, entry.fileName), with no
sanitization of the entry name. -/
def extractTarGzWritePaths (destDir : String) (entries : List TarEntry) :
    List String :=
  (entries.filter (fun e => e.entryType == "file")).map
    (fun e => joinPath [destDir, e.fileName])

/-- The external world of part_000: Deno.build introspection, Deno.env
reads, and outcomes of fetch, Deno.readFile, crypto.subtle.digest, the
extraction step, Deno.chmod and the two Deno.Command spawns. versionSpawn
is the result of Deno.Command(installPath, -v).output(): an error only if
the spawn itself fails; a completed run carries its exit code. -/
structure DEnv where
  osName : String
  archName : String
  home : String
  aquaRootDir : Option String
  xdgDataHome : Option String
  tempDir : String
  fetchOutcome : Except String Unit
  fileBytes : String → List Nat
  sha256 : List Nat → List Nat
  extractOutcome : Except String Unit
  chmodOutcome : Except String Unit
  updateSuccess : Bool
  versionSpawn : Except String Nat

/-- part_000 verifyChecksum: same read, hash, hex-encode and exact string
comparison as the Node variant. -/
def verifyChecksumDeno (env : DEnv) (filePath expectedChecksum : String) :
    Except Err Unit :=
  let fileData := env.fileBytes filePath
  let hashHex := bytesToHex (env.sha256 fileData)
  if hashHex = expectedChecksum then .ok ()
  else .error (.checksumMismatch expectedChecksum hashHex)

/-- The try block of part_000 install: download into the temp dir, verify,
extract, chmod, run update-aqua (output.success checked), then spawn the
installed binary with -v, whose exit code is not checked. -/
def installAttemptDeno (version : Option String) (env : DEnv)
    (installPath : String) (isWindows : Bool) (filename url expectedChecksum : String) :
    Except Err Unit × List Event :=
  let downloadPath := joinPath [env.tempDir, filename]
  match env.fetchOutcome with
  | .error msg => (.error (.downloadFailed msg), [.netDownload url])
  | .ok _ =>
    match verifyChecksumDeno env downloadPath expectedChecksum with
    | .error e =>
      (.error e, [.netDownload url, .fileWrite downloadPath, .fileRead downloadPath])
    | .ok _ =>
      match env.extractOutcome with
      | .error msg =>
        (.error (.extractionFailed msg),
         [.netDownload url, .fileWrite downloadPath, .fileRead downloadPath,
          .extractArchiveTo downloadPath env.tempDir])
      | .ok _ =>
        let aquaBinaryPath :=
          joinPath [env.tempDir, if isWindows then "aqua.exe" else "aqua"]
        let evs : List Event :=
          [.netDownload url, .fileWrite downloadPath, .fileRead downloadPath,
           .extractArchiveTo downloadPath env.tempDir,
           .chmodFile aquaBinaryPath]
        match env.chmodOutcome with
        | .error msg => (.error (.chmodFailed msg), evs)
        | .ok _ =>
          let args := match version with
            | some v => ["update-aqua", v]
            | none => ["update-aqua"]
          let evs2 := evs ++ [.execProc aquaBinaryPath args]
          if !env.updateSuccess then (.error .updateFailed, evs2)
          else
            let evs3 := evs2 ++ [.execProc installPath ["-v"]]
            match env.versionSpawn with
            | .error msg => (.error (.spawnFailed installPath msg), evs3)
            | .ok _exitCode => (.ok (), evs3)

/-- part_000 install: same driver shape as the Node variant, with the
Deno platform names and the non-fatal final version query. -/
def installDeno (version : Option String) (env : DEnv) :
    Except Err Unit × List Event :=
  match getOSDeno env.osName with
  | .error e => (.error e, [])
  | .ok os =>
    match getArchDeno env.archName with
    | .error e => (.error e, [])
    | .ok architecture =>
      let installPath := getInstallPath os env.aquaRootDir env.xdgDataHome env.home
      let isWindows := os = "windows"
      let filename := artifactFilename os architecture
      let url := artifactUrl filename
      match lookupChecksum filename with
      | none => (.error (.noChecksum filename), [])
      | some expectedChecksum =>
        let body := installAttemptDeno version env installPath isWindows
          filename url expectedChecksum
        (body.1,
         Event.mkTempDir env.tempDir :: body.2 ++ [Event.removeDir env.tempDir])

end AquaInstaller

deriving instance DecidableEq for Except

namespace AquaInstaller

/-! ### Concrete environments for witnesses -/

/-- The byte sequence whose lowercase hex rendering is the pinned
linux/amd64 checksum; used to drive executions past verification. -/
def linuxDigestBytes : List Nat :=
  [0x73, 0x71, 0xb9, 0x78, 0x5e, 0x07, 0xc4, 0x29,
   0x60, 0x8a, 0x21, 0xe4, 0xd5, 0xb1, 0x7d, 0xaf,
   0xe6, 0x78, 0x0d, 0xab, 0xe3, 0x06, 0xec, 0x9f,
   0x4b, 0xe8, 0x42, 0xea, 0x75, 0x4d, 0xe4, 0x8a]

/-- A linux/x64 world in which every external step succeeds and the
downloaded file hashes to the pinned checksum. -/
def envLinuxOk : Env :=
  { osName := "linux", archName := "x64", home := "/home/user",
    aquaRootDir := none, xdgDataHome := none, tempDir := "/tmp/aqua-XXXX",
    downloadResult := .ok "/tmp/dl-1", fileBytes := fun _ => [],
    sha256 := fun _ => linuxDigestBytes,
    extractOutcome := .ok "/tmp/aqua-XXXX",
    chmodOutcome := .ok (), updateExitCode := 0, versionExitCode := 0 }

/-- The Deno counterpart of envLinuxOk. -/
def denvLinuxOk : DEnv :=
  { osName := "linux", archName := "x86_64", home := "/home/user",
    aquaRootDir := none, xdgDataHome := none, tempDir := "/tmp/aqua-XXXX",
    fetchOutcome := .ok (), fileBytes := fun _ => [],
    sha256 := fun _ => linuxDigestBytes,
    extractOutcome := .ok (), chmodOutcome := .ok (),
    updateSuccess := true, versionSpawn := .ok 0 }

/-! ### Character-class helpers for digest strings -/

def isLowerHexCode (n : Nat) : Bool :=
  (48 ≤ n && n ≤ 57) || (97 ≤ n && n ≤ 102)

def isUpperLetterCode (n : Nat) : Bool :=
  65 ≤ n && n ≤ 90

/-- A 64-character string of lowercase hex digits. -/
def isLowerHex64 (s : String) : Bool :=
  s.length == 64 && s.data.all (fun c => isLowerHexCode c.toNat)

def asciiLowerCode (n : Nat) : Nat :=
  if 65 ≤ n ∧ n ≤ 90 then n + 32 else n

/-- ASCII-case-insensitive string equality, as the spec's case-insensitive
comparison would read. -/
def eqUpToAsciiCase (s t : String) : Bool :=
  s.data.map (fun c => asciiLowerCode c.toNat)
    == t.data.map (fun c => asciiLowerCode c.toNat)

/-- The URLs of the network download events of a trace. -/
def downloadUrls (evs : List Event) : List String :=
  evs.filterMap (fun e =>
    match e with
    | .netDownload u => some u
    | _ => none)

/-- The download URLs an install run can perform, by platform outcome. -/
def expectedUrls (env : Env) : List String :=
  match getOS env.osName, getArch env.archName with
  | .ok os, .ok architecture =>
    match lookupChecksum (artifactFilename os architecture) with
    | some _ => [artifactUrl (artifactFilename os architecture)]
    | none => []
  | _, _ => []

/-- A tar entry whose name traverses out of the destination directory. -/
def traversalEntry : TarEntry :=
  { entryType := "file", fileName := "../../etc/passwd" }

/-- C1 environment: download succeeds but the file hashes to the empty
digest, which differs from the pinned linux/amd64 checksum. -/
def envC1 : Env := { envLinuxOk with sha256 := fun _ => [] }

/-- C2 counterexample environment: the SHA-256 oracle returns thirty-two
0xab bytes, whose hex rendering is all lowercase letters. -/
def envC2 : Env := { envLinuxOk with sha256 := fun _ => List.replicate 32 171 }

def upperDigestAB : String :=
  "ABABABABABABABABABABABABABABABABABABABABABABABABABABABABABABABAB"

/-- C6 environment: every stage through self-update succeeds, and the
final version query of the installed binary exits with code 1. -/
def envC6 : Env := { envLinuxOk with versionExitCode := 1 }

/-- C6 Deno environment: as denvLinuxOk, but the version query exits with
code 1. -/
def denvC6 : DEnv := { denvLinuxOk with versionSpawn := .ok 1 }

theorem hexDigitChar_lower :
    ∀ n, n < 16 → isLowerHexCode (hexDigitChar n).toNat = true := by
  decide

theorem byteToHex_lower {b : Nat} (hb : b < 256) :
    ∀ c ∈ byteToHex b, isLowerHexCode c.toNat = true := by
  intro c hc
  simp only [byteToHex, List.mem_cons, List.mem_singleton, List.not_mem_nil,
    or_false] at hc
  rcases hc with rfl | rfl
  · exact hexDigitChar_lower _ (by omega)
  · exact hexDigitChar_lower _ (Nat.mod_lt _ (by norm_num))

theorem bytesToHex_lower {bs : List Nat} (hb : ∀ b ∈ bs, b < 256) :
    ∀ c ∈ (bytesToHex bs).data, isLowerHexCode c.toNat = true := by
  intro c hc
  rcases List.mem_flatMap.mp hc with ⟨b, hbmem, hcb⟩
  exact byteToHex_lower (hb b hbmem) c hcb

theorem bytesToHex_length (bs : List Nat) :
    (bytesToHex bs).length = 2 * bs.length := by
  show (bs.flatMap byteToHex).length = 2 * bs.length
  induction bs with
  | nil => rfl
  | cons b t ih =>
    simp only [List.flatMap_cons, byteToHex, List.length_append,
      List.length_cons, List.length_nil, List.length_cons] at *
    omega

theorem lowerHex_not_upper {n : Nat} (h : isLowerHexCode n = true) :
    isUpperLetterCode n = false := by
  simp only [isLowerHexCode, isUpperLetterCode, Bool.or_eq_true,
    Bool.and_eq_true, decide_eq_true_eq] at *
  simp only [Bool.and_eq_false_iff, decide_eq_false_iff_not, not_le]
  omega

/-! ### Claim C2 -/

/-- C2 counterexample: the expected digest differs from the computed hex
digest only in ASCII letter case, yet verifyChecksum fails with a checksum
mismatch — the comparison in the code is exact, not case-insensitive. -/
theorem verify_rejects_uppercase_expected :
    eqUpToAsciiCase (bytesToHex (envC2.sha256 (envC2.fileBytes "/tmp/dl-1")))
        upperDigestAB = true
    ∧ verifyChecksum envC2 "/tmp/dl-1" upperDigestAB
        = .error (.checksumMismatch upperDigestAB
            (bytesToHex (envC2.sha256 (envC2.fileBytes "/tmp/dl-1")))) := by
  decide

/-- C2 (amended): verifyChecksum succeeds exactly when the computed
lowercase hex digest equals the expected digest as strings, case
included; consequently any expected digest containing an uppercase ASCII
letter is always rejected. -/
theorem verifyChecksum_exact_case_sensitive (env : Env) (filePath expected : String)
    (hbytes : ∀ b ∈ env.sha256 (env.fileBytes filePath), b < 256) :
    (verifyChecksum env filePath expected = .ok ()
       ↔ bytesToHex (env.sha256 (env.fileBytes filePath)) = expected)
    ∧ ((∃ c ∈ expected.data, isUpperLetterCode c.toNat = true) →
        verifyChecksum env filePath expected
          = .error (.checksumMismatch expected
              (bytesToHex (env.sha256 (env.fileBytes filePath))))) := by
  constructor
  · unfold verifyChecksum
    dsimp only
    split
    · rename_i h; simp [h]
    · rename_i h; simp [h]
  · rintro ⟨c, hc, hupper⟩
    unfold verifyChecksum
    dsimp only
    split
    · rename_i h
      exfalso
      rw [← h] at hc
      have hl := bytesToHex_lower hbytes c hc
      rw [lowerHex_not_upper hl] at hupper
      exact Bool.noConfusion hupper
    · rfl

/-- C2 witness: instantiates the amended theorem at a concrete
environment, a lowercase expected digest that matches, and an uppercase
one that must be rejected. -/
theorem verifyChecksum_exact_case_sensitive_witness :
    (verifyChecksum envC2 "/tmp/dl-1"
        "abababababababababababababababababababababababababababababababab"
      = .ok ())
    ∧ verifyChecksum envC2 "/tmp/dl-1" upperDigestAB
        = .error (.checksumMismatch upperDigestAB
            (bytesToHex (envC2.sha256 (envC2.fileBytes "/tmp/dl-1")))) :=
  ⟨((verifyChecksum_exact_case_sensitive envC2 "/tmp/dl-1"
      "abababababababababababababababababababababababababababababababab"
      (by decide)).1).mpr (by decide),
   (verifyChecksum_exact_case_sensitive envC2 "/tmp/dl-1" upperDigestAB
      (by decide)).2 ⟨'A', by decide, by decide⟩⟩

/-! ### Claim C10 -/

/-- C10: every digest in the static checksum table is a 64-character
lowercase hex string, and the digest computation (lowercase hex of a
32-byte hash output) always produces exactly that format, so the exact
comparison can succeed for a genuine artifact. -/
theorem checksums_are_lower_hex64 :
    CHECKSUMS.all (fun p => isLowerHex64 p.2) = true
    ∧ ∀ bs : List Nat, bs.length = 32 → (∀ b ∈ bs, b < 256) →
        isLowerHex64 (bytesToHex bs) = true := by
  constructor
  · decide
  · intro bs hlen hb
    unfold isLowerHex64
    rw [Bool.and_eq_true]
    constructor
    · rw [beq_iff_eq, bytesToHex_length, hlen]
    · rw [List.all_eq_true]
      intro c hc
      exact bytesToHex_lower hb c hc

/-- C10 witness: the digest format theorem applied to a concrete 32-byte
output. -/
theorem checksums_are_lower_hex64_witness :
    isLowerHex64 (bytesToHex (List.replicate 32 0)) = true :=
  checksums_are_lower_hex64.2 (List.replicate 32 0) (by decide) (by decide)

/-! ### Claim C3 -/

/-- C3: extractTarGz computes join(destDir, entry.fileName) with no
rejection or confinement of dot-dot segments, so the write path produced
for a traversal entry resolves outside the destination directory. -/
theorem extractTarGz_traversal_escape :
    extractTarGzWritePaths "/tmp/aqua-XXXX" [traversalEntry] = ["/etc/passwd"]
    ∧ isWithinDir "/tmp/aqua-XXXX" "/etc/passwd" = false := by
  decide

/-! ### Claim C9 -/

/-- C9: getInstallPath for windows returns the path rooted at the
AppData/Local default under the home directory when AQUA_ROOT_DIR is
unset, and the path rooted at the override for any non-empty override
value. -/
theorem getInstallPath_windows_roots (aquaRoot xdg : Option String)
    (home r : String) :
    (aquaRoot = none →
       getInstallPath "windows" aquaRoot xdg home
         = joinPath [joinPath [home, "AppData", "Local", "aquaproj-aqua"],
                     "bin", "aqua.exe"])
    ∧ (aquaRoot = some r → r ≠ "" →
       getInstallPath "windows" aquaRoot xdg home
         = joinPath [r, "bin", "aqua.exe"]) := by
  constructor
  · rintro rfl
    rfl
  · rintro rfl hr
    unfold getInstallPath jsOr
    simp [hr]

/-- C9 witness: concrete home and override values, with the resulting
paths evaluated. -/
theorem getInstallPath_windows_roots_witness :
    getInstallPath "windows" none none "/home/user"
      = "/home/user/AppData/Local/aquaproj-aqua/bin/aqua.exe"
    ∧ getInstallPath "windows" (some "/opt/aqua") none "/home/user"
      = "/opt/aqua/bin/aqua.exe" :=
  ⟨((getInstallPath_windows_roots none none "/home/user" "").1 rfl).trans
     (by decide),
   ((getInstallPath_windows_roots (some "/opt/aqua") none "/home/user"
        "/opt/aqua").2 rfl (by decide)).trans (by decide)⟩

/-! ### Claim C4 -/

/-- C4: on every exit path — success or any failure — either install
failed before creating the temporary workspace and performed no events at
all, or its first event is the creation of the temporary directory and
its very last event is the recursive removal of that directory, so the
try/finally cleanup runs before install returns or propagates an error. -/
theorem install_cleanup_on_all_paths (version : Option String) (env : Env) :
    (install version env).2 = []
    ∨ ((install version env).2.head? = some (Event.mkTempDir env.tempDir)
       ∧ (install version env).2.getLast? = some (Event.removeDir env.tempDir)) := by
  unfold install
  split
  · left; rfl
  · split
    · left; rfl
    · dsimp only
      split
      · left; rfl
      · right
        dsimp only
        exact ⟨rfl, List.getLast?_concat _⟩

/-! ### Claim C8 -/

theorem getOS_unsupported {s : String}
    (h : s ∉ (["darwin", "linux", "win32"] : List String)) :
    getOS s = .error (.unsupportedOS s) := by
  unfold getOS
  split <;> simp_all

theorem getArch_unsupported {s : String}
    (h : s ∉ (["x64", "arm64"] : List String)) :
    getArch s = .error (.unsupportedArch s) := by
  unfold getArch
  split <;> simp_all

/-- C8: for a host OS outside the supported set, and for a supported OS
with a CPU architecture outside the supported set, install fails at
platform resolution with the error naming the offending value, and its
event trace is empty: no network or filesystem I/O happens. -/
theorem unsupported_platform_aborts_before_io (version : Option String)
    (env : Env) :
    (env.osName ∉ (["darwin", "linux", "win32"] : List String) →
        install version env = (.error (.unsupportedOS env.osName), []))
    ∧ (env.osName ∈ (["darwin", "linux", "win32"] : List String) →
       env.archName ∉ (["x64", "arm64"] : List String) →
        install version env = (.error (.unsupportedArch env.archName), [])) := by
  constructor
  · intro h
    unfold install
    rw [getOS_unsupported h]
  · intro hmem hnarch
    unfold install
    rw [getArch_unsupported hnarch]
    simp only [List.mem_cons, List.mem_singleton, List.not_mem_nil,
      or_false] at hmem
    rcases hmem with h1 | h1 | h1
    · rw [show getOS env.osName = Except.ok "darwin" from by rw [h1]; decide]
    · rw [show getOS env.osName = Except.ok "linux" from by rw [h1]; decide]
    · rw [show getOS env.osName = Except.ok "windows" from by rw [h1]; decide]

/-- C8 witness: a freebsd host aborts naming the OS; a linux host with a
riscv64 CPU aborts naming the architecture; both with empty traces. -/
theorem unsupported_platform_aborts_before_io_witness :
    install none { envLinuxOk with osName := "freebsd" }
      = (.error (.unsupportedOS "freebsd"), [])
    ∧ install none { envLinuxOk with archName := "riscv64" }
      = (.error (.unsupportedArch "riscv64"), []) :=
  ⟨(unsupported_platform_aborts_before_io none
      { envLinuxOk with osName := "freebsd" }).1 (by decide),
   (unsupported_platform_aborts_before_io none
      { envLinuxOk with archName := "riscv64" }).2 (by decide) (by decide)⟩

/-! ### Claim C1 -/

/-- C1: whenever the downloaded file's computed hex digest differs from
the pinned expected digest, install fails with exactly the
checksum-mismatch error and its event trace contains no extraction and no
process execution. Since the environment is arbitrary, the contrapositive
holds in every execution of install: a trace containing an extraction or
execution event can only arise when the computed digest equalled the
pinned digest, i.e. after verifyChecksum returned successfully. -/
theorem checksum_mismatch_blocks_extraction (version : Option String)
    (env : Env) (os architecture expected downloadPath : String)
    (hos : getOS env.osName = .ok os)
    (harch : getArch env.archName = .ok architecture)
    (hck : lookupChecksum (artifactFilename os architecture) = some expected)
    (hdl : env.downloadResult = .ok downloadPath)
    (hneq : bytesToHex (env.sha256 (env.fileBytes downloadPath)) ≠ expected) :
    (install version env).1
      = .error (.checksumMismatch expected
          (bytesToHex (env.sha256 (env.fileBytes downloadPath))))
    ∧ (∀ a d, Event.extractArchiveTo a d ∉ (install version env).2)
    ∧ (∀ c args, Event.execProc c args ∉ (install version env).2) := by
  have htrace : install version env
      = (.error (.checksumMismatch expected
            (bytesToHex (env.sha256 (env.fileBytes downloadPath)))),
         [Event.mkTempDir env.tempDir,
          .netDownload (artifactUrl (artifactFilename os architecture)),
          .fileRead downloadPath, .removeDir env.tempDir]) := by
    unfold install
    rw [hos, harch]
    dsimp only
    rw [hck]
    unfold installAttempt
    rw [hdl]
    unfold verifyChecksum
    dsimp only
    rw [if_neg hneq]
    rfl
  rw [htrace]
  refine ⟨rfl, ?_, ?_⟩ <;> intro _ _ <;> simp

/-- C1 witness: the mismatch theorem at a concrete environment. -/
theorem checksum_mismatch_blocks_extraction_witness :
    (install none envC1).1
      = .error (.checksumMismatch
          "7371b9785e07c429608a21e4d5b17dafe6780dabe306ec9f4be842ea754de48a"
          (bytesToHex (envC1.sha256 (envC1.fileBytes "/tmp/dl-1"))))
    ∧ Event.extractArchiveTo "/tmp/dl-1" "/tmp/aqua-XXXX" ∉ (install none envC1).2
    ∧ Event.execProc "/tmp/aqua-XXXX/aqua" ["update-aqua"] ∉ (install none envC1).2 :=
  ⟨(checksum_mismatch_blocks_extraction none envC1 "linux" "amd64"
      "7371b9785e07c429608a21e4d5b17dafe6780dabe306ec9f4be842ea754de48a"
      "/tmp/dl-1" rfl rfl (by decide) rfl (by decide)).1,
   (checksum_mismatch_blocks_extraction none envC1 "linux" "amd64"
      "7371b9785e07c429608a21e4d5b17dafe6780dabe306ec9f4be842ea754de48a"
      "/tmp/dl-1" rfl rfl (by decide) rfl (by decide)).2.1 "/tmp/dl-1" "/tmp/aqua-XXXX",
   (checksum_mismatch_blocks_extraction none envC1 "linux" "amd64"
      "7371b9785e07c429608a21e4d5b17dafe6780dabe306ec9f4be842ea754de48a"
      "/tmp/dl-1" rfl rfl (by decide) rfl (by decide)).2.2
      "/tmp/aqua-XXXX/aqua" ["update-aqua"]⟩

/-! ### Claim C5 -/

theorem installAttempt_downloadUrls (version : Option String) (env : Env)
    (installPath : String) (isWindows : Bool) (url ck : String) :
    downloadUrls (installAttempt version env installPath isWindows url ck).2
      = [url] := by
  unfold installAttempt
  split
  · rfl
  · split
    · rfl
    · split
      · rfl
      · dsimp only
        split
        · rfl
        · split
          · simp [downloadUrls]
          · split
            · simp [downloadUrls]
            · simp [downloadUrls]

theorem downloadUrls_wrap (d d2 : String) (evs : List Event) :
    downloadUrls (Event.mkTempDir d :: evs ++ [Event.removeDir d2])
      = downloadUrls evs := by
  simp [downloadUrls, List.filterMap_cons, List.filterMap_append]

theorem install_downloadUrls (v : Option String) (env : Env) :
    downloadUrls (install v env).2 = expectedUrls env := by
  unfold install expectedUrls
  split
  · rename_i e hos
    rw [hos]
    rfl
  · rename_i os hos
    split
    · rename_i e harch
      rw [hos, harch]
      rfl
    · rename_i architecture harch
      dsimp only
      split
      · rename_i hck
        rw [hos, harch]
        dsimp only
        rw [hck]
        rfl
      · rename_i ck hck
        rw [hos, harch]
        dsimp only
        rw [hck]
        dsimp only
        rw [downloadUrls_wrap, installAttempt_downloadUrls]

/-- C5: the download URL is a function of the pinned bootstrap version and
the platform-derived filename only. Any two caller-supplied target
versions produce the identical download events, and every URL downloaded
is exactly the fixed release-host template applied to the pinned version
and filename — no caller input reaches it. -/
theorem download_url_ignores_target_version (env : Env) (v1 v2 : Option String) :
    downloadUrls (install v1 env).2 = downloadUrls (install v2 env).2
    ∧ (∀ u ∈ downloadUrls (install v1 env).2,
        ∃ os architecture, getOS env.osName = .ok os
          ∧ getArch env.archName = .ok architecture
          ∧ u = artifactUrl (artifactFilename os architecture)) := by
  constructor
  · rw [install_downloadUrls, install_downloadUrls]
  · intro u hu
    rw [install_downloadUrls] at hu
    unfold expectedUrls at hu
    rcases hos : getOS env.osName with e | os <;> rw [hos] at hu
    · dsimp only at hu
      exact absurd hu (List.not_mem_nil u)
    · rcases harch : getArch env.archName with e | architecture <;>
        rw [harch] at hu
      · dsimp only at hu
        exact absurd hu (List.not_mem_nil u)
      · dsimp only at hu
        rcases hck : lookupChecksum (artifactFilename os architecture) with
          _ | ck <;> rw [hck] at hu
        · exact absurd hu (List.not_mem_nil u)
        · rw [List.mem_singleton] at hu
          exact ⟨os, architecture, rfl, rfl, hu⟩

/-- C5 witness: two different caller versions on the same environment,
with the download URL of the trace evaluated. -/
theorem download_url_ignores_target_version_witness :
    downloadUrls (install (some "v3.0.0") envLinuxOk).2
      = downloadUrls (install none envLinuxOk).2
    ∧ ∃ os architecture, getOS envLinuxOk.osName = .ok os
        ∧ getArch envLinuxOk.archName = .ok architecture
        ∧ "https://github.com/aquaproj/aqua/releases/download/v2.55.1/aqua_linux_amd64.tar.gz"
            = artifactUrl (artifactFilename os architecture) :=
  ⟨(download_url_ignores_target_version envLinuxOk (some "v3.0.0") none).1,
   (download_url_ignores_target_version envLinuxOk (some "v3.0.0") none).2
     "https://github.com/aquaproj/aqua/releases/download/v2.55.1/aqua_linux_amd64.tar.gz"
     (by decide)⟩

/-! ### Claim C6 -/

/-- C6 counterexample: in src/main.ts the final version-query invocation
is fatal, not the sole non-fatal step. With every stage through
self-update succeeding (the update-aqua execution is in the trace) and
the installed binary exiting non-zero on the -v query, install propagates
an error instead of completing, because exec.exec rejects on a non-zero
exit code. -/
theorem node_version_query_failure_fatal :
    (install none envC6).1
      = .error (.execFailed "/home/user/.local/share/aquaproj-aqua/bin/aqua"
          ["-v"] 1)
    ∧ Event.execProc "/tmp/aqua-XXXX/aqua" ["update-aqua"] ∈ (install none envC6).2 := by
  decide

/-- C6 (amended): the non-fatal final version query holds of the Deno
implementation (src/unnamed/part_000), where the spawn result's exit code
is never checked: once every stage through self-update has succeeded,
install returns success whatever exit code the version query reports. In
src/main.ts the same failure propagates (see the counterexample). -/
theorem deno_version_query_nonfatal (version : Option String) (env : DEnv)
    (os architecture expected : String) (code : Nat)
    (hos : getOSDeno env.osName = .ok os)
    (harch : getArchDeno env.archName = .ok architecture)
    (hck : lookupChecksum (artifactFilename os architecture) = some expected)
    (hfetch : env.fetchOutcome = .ok ())
    (hdig : bytesToHex (env.sha256 (env.fileBytes
        (joinPath [env.tempDir, artifactFilename os architecture]))) = expected)
    (hextract : env.extractOutcome = .ok ())
    (hchmod : env.chmodOutcome = .ok ())
    (hupdate : env.updateSuccess = true)
    (hspawn : env.versionSpawn = .ok code) :
    (installDeno version env).1 = .ok () := by
  unfold installDeno
  rw [hos, harch]
  dsimp only
  rw [hck]
  unfold installAttemptDeno
  dsimp only
  rw [hfetch]
  unfold verifyChecksumDeno
  dsimp only
  rw [if_pos hdig]
  rw [hextract, hchmod, hupdate, hspawn]
  rfl

/-- C6 witness for the amended claim: a concrete Deno environment in
which the version query exits with code 1 and install still succeeds. -/
theorem deno_version_query_nonfatal_witness :
    (installDeno none denvC6).1 = .ok () :=
  deno_version_query_nonfatal none denvC6 "linux" "amd64"
    "7371b9785e07c429608a21e4d5b17dafe6780dabe306ec9f4be842ea754de48a" 1
    rfl rfl (by decide) rfl (by decide) rfl rfl rfl rfl

/-! ### Claim C7 -/

theorem verifyChecksum_error_shape (env : Env) (p ck : String) (e : Err)
    (h : verifyChecksum env p ck = .error e) :
    e = .checksumMismatch ck (bytesToHex (env.sha256 (env.fileBytes p))) := by
  unfold verifyChecksum at h
  dsimp only at h
  split at h
  · exact absurd h (by simp)
  · injection h with h
    exact h.symm

theorem installAttempt_never_noChecksum (version : Option String) (env : Env)
    (installPath : String) (isWindows : Bool) (url ck f : String) :
    (installAttempt version env installPath isWindows url ck).1
      ≠ .error (.noChecksum f) := by
  unfold installAttempt
  split
  · simp
  · split
    · rename_i e heq
      rw [verifyChecksum_error_shape env _ ck e heq]
      simp
    · split
      · simp
      · dsimp only
        split
        · simp
        · split
          · simp
          · split
            · simp
            · simp

/-- C7: for every supported platform pair, the artifact filename
constructed by install is a key of the static checksum table, and install
can never fail with the no-checksum error when the host platform is
supported: that error branch is unreachable. -/
theorem supported_platforms_in_checksum_table
    (osRaw archRaw os architecture : String)
    (hos : getOS osRaw = .ok os) (harch : getArch archRaw = .ok architecture) :
    (lookupChecksum (artifactFilename os architecture)).isSome = true
    ∧ ∀ (version : Option String) (env : Env) (f : String),
        env.osName = osRaw → env.archName = archRaw →
        (install version env).1 ≠ .error (.noChecksum f) := by
  have hosmem : os ∈ (["darwin", "linux", "windows"] : List String) := by
    unfold getOS at hos
    split at hos <;> simp_all
  have harchmem : architecture ∈ (["amd64", "arm64"] : List String) := by
    unfold getArch at harch
    split at harch <;> simp_all
  have hsome : (lookupChecksum (artifactFilename os architecture)).isSome = true := by
    simp only [List.mem_cons, List.mem_singleton, List.not_mem_nil, or_false]
      at hosmem harchmem
    rcases hosmem with rfl | rfl | rfl <;> rcases harchmem with rfl | rfl <;> decide
  refine ⟨hsome, ?_⟩
  intro version env f h1 h2
  unfold install
  rw [show getOS env.osName = Except.ok os from by rw [h1, hos]]
  rw [show getArch env.archName = Except.ok architecture from by rw [h2, harch]]
  dsimp only
  rcases Option.isSome_iff_exists.mp hsome with ⟨ck, hck⟩
  rw [hck]
  dsimp only
  exact installAttempt_never_noChecksum version env _ _ _ ck f

/-- C7 witness: the linux/x64 host resolves to a filename with a pinned
checksum, and a concrete install run does not fail with NoChecksum. -/
theorem supported_platforms_in_checksum_table_witness :
    (lookupChecksum (artifactFilename "linux" "amd64")).isSome = true
    ∧ (install none envLinuxOk).1 ≠ .error (.noChecksum "aqua_linux_amd64.tar.gz") :=
  ⟨(supported_platforms_in_checksum_table "linux" "x64" "linux" "amd64" rfl rfl).1,
   (supported_platforms_in_checksum_table "linux" "x64" "linux" "amd64" rfl rfl).2
     none envLinuxOk "aqua_linux_amd64.tar.gz" rfl rfl⟩

end AquaInstaller
